import Mathlib

/-!
Shallow embedding of the Oslo Bysykkel station service (Go, four near-identical
variants in the repository):

* `Server`: the web-server variant (gorilla/mux + go-cache): `fetch` with an
  HTTP status-code check, concurrent `fetchData` joining the two feeds into a
  map keyed by station id, `updateStationsCache`, and the two read handlers.
* `Tview`: the terminal variant: same fetch/units/loop, `fetchData` joining
  into a slice plus an advisory message, sorted by station name.
* `CLI`: `main.go`: `fetch` without a status-code check, concurrent
  `fetchData` returning the two raw lookup maps and the error.
* `Seq`: the sequential variant: `fetch` without a status-code check and
  sequential `fetchStationInformation` / `fetchStationStatus`.

Network I/O and JSON decoding are external effects; they are modelled by
passing the outcome of the HTTP exchange (`httpResult`) and the behaviour of
`json.Unmarshal` (a function from the body to a decoded value or an error)
as explicit parameters.  Go `error` values are modelled by `goError`
(an error is its message string); `nil` error is `Option.none`.
Go maps are modelled as association lists with Go's insert-or-replace
semantics (`mapSet`) and lookup (`mapGet`); iterating a map visits its
entries in an unspecified order, which the development accounts for by
proving the join results invariant under permutation of the entry list.
-/

/-- Go `error` value: observationally a message string (`Error() string`).
The `nil` error is represented as `Option.none` at use sites. -/
structure goError where
  message : String
deriving DecidableEq, Repr

/-- Station record of the metadata feed (`station_information.json`).
`Latitude` / `Longitude` are `float64` coordinates carried opaquely by the
program (never computed with); they are modelled as integers. -/
structure gbfsStationInformationStation where
  StationID : String
  Name : String
  Address : String
  Latitude : Int
  Longitude : Int
  Capacity : Int
deriving DecidableEq, Repr

structure gbfsStationInformationData where
  Stations : List gbfsStationInformationStation
deriving DecidableEq, Repr

structure gbfsStationInformation where
  LastUpdated : Int
  Data : gbfsStationInformationData
deriving DecidableEq, Repr

/-- Station record of the live status feed (`station_status.json`).
The `Is*` flags are integers on the wire and are kept as integers. -/
structure gbfsStationStatusStation where
  StationID : String
  NumberOfBikesAvailable : Int
  NumberOfBikesDisabled : Int
  NumberOfDocksAvailable : Int
  NumberOfDocksDisabled : Int
  IsInstalled : Int
  IsRenting : Int
  IsReturning : Int
  LastReported : Int
deriving DecidableEq, Repr

structure gbfsStationStatusData where
  Stations : List gbfsStationStatusStation
deriving DecidableEq, Repr

structure gbfsStationStatus where
  LastUpdated : Int
  Data : gbfsStationStatusData
deriving DecidableEq, Repr

/-- Zero value of `gbfsStationInformation` (Go `var` declaration / fresh
composite literal with only some fields set). -/
def gbfsStationInformation.zero : gbfsStationInformation :=
  { LastUpdated := 0, Data := { Stations := [] } }

/-- Zero value of `gbfsStationStatus`. -/
def gbfsStationStatus.zero : gbfsStationStatus :=
  { LastUpdated := 0, Data := { Stations := [] } }

/-- Result record sent on the information channel
(`stationInformationResult`); exactly one of the two fields is meaningful,
the other keeps its zero value, as in the Go struct literals. -/
structure stationInformationResult where
  Information : gbfsStationInformation
  Error : Option goError
deriving DecidableEq, Repr

/-- Result record sent on the status channel (`stationStatusResult`). -/
structure stationStatusResult where
  Status : gbfsStationStatus
  Error : Option goError
deriving DecidableEq, Repr

/-! ### Go maps as association lists -/

/-- Go map lookup `v, ok := m[k]`: the first binding of the key, if any. -/
def mapGet {α : Type} : List (String × α) → String → Option α
  | [], _ => none
  | (k, v) :: rest, key => if k = key then some v else mapGet rest key

/-- Go map assignment `m[k] = v`: replace the existing binding in place, or
append a new binding. -/
def mapSet {α : Type} : List (String × α) → String → α → List (String × α)
  | [], key, val => [(key, val)]
  | (k, v) :: rest, key, val =>
      if k = key then (key, val) :: rest else (k, v) :: mapSet rest key val

/-- The keys of a map, in entry order. -/
def mapKeys {α : Type} (m : List (String × α)) : List String :=
  m.map Prod.fst

/-! ### Raw Fetcher (`fetch`)

The outcome of the HTTP exchange is a parameter: either `client.Do`
failed (network error / timeout), or a response arrived with a status code
and a body read that itself either failed or produced the body bytes. -/

/-- Body bytes are modelled as a string. Reading the body
(`ioutil.ReadAll`) may fail. -/
structure httpResponse where
  StatusCode : Int
  Body : Except goError String
deriving Repr

inductive httpResult where
  | failure (e : goError)
  | response (resp : httpResponse)
deriving Repr

def clientIdentifier : String := "test-test"

def stationInformationAddress : String :=
  "https://gbfs.urbansharing.com/oslobysykkel.no/station_information.json"

def stationStatusAddress : String :=
  "https://gbfs.urbansharing.com/oslobysykkel.no/station_status.json"

namespace Server

/-- The `fetch` of the web-server and terminal variants: a non-200 status
code fails with the formatted error and the body is not read. -/
def fetch (url : String) (result : httpResult) : Except goError String :=
  match result with
  | .failure e => .error e
  | .response resp =>
      if resp.StatusCode ≠ 200 then
        .error ⟨"Http GET to " ++ url ++ " failed with status code "
                  ++ toString resp.StatusCode⟩
      else
        match resp.Body with
        | .error e => .error e
        | .ok body => .ok body

end Server

namespace CLI

/-- The `fetch` of `main.go` and of the sequential variant: no status-code
check; whatever body is read is returned for any status code. -/
def fetch (url : String) (result : httpResult) : Except goError String :=
  match result with
  | .failure e => .error e
  | .response resp =>
      match resp.Body with
      | .error e => .error e
      | .ok body => .ok body

end CLI

/-! ### Concurrent fetch-and-decode units (identical in the three
concurrent variants)

`body` is the value returned by the variant's `fetch` call and `unmarshal`
is the behaviour of `json.Unmarshal` on this cycle's bytes. -/

/-- `fetchStationInformation(informationChannel)`: the result value sent on
the channel. -/
def fetchStationInformation
    (body : Except goError String)
    (unmarshal : String → Except goError gbfsStationInformation) :
    stationInformationResult :=
  match body with
  | .error e => { Information := gbfsStationInformation.zero, Error := some e }
  | .ok bytes =>
      match unmarshal bytes with
      | .error e => { Information := gbfsStationInformation.zero, Error := some e }
      | .ok information => { Information := information, Error := none }

/-- `fetchStationStatus(statusChannel)`: the result value sent on the
channel. -/
def fetchStationStatus
    (body : Except goError String)
    (unmarshal : String → Except goError gbfsStationStatus) :
    stationStatusResult :=
  match body with
  | .error e => { Status := gbfsStationStatus.zero, Error := some e }
  | .ok bytes =>
      match unmarshal bytes with
      | .error e => { Status := gbfsStationStatus.zero, Error := some e }
      | .ok status => { Status := status, Error := none }

/-! ### The select loop shared by the three concurrent `fetchData` variants

Both goroutines send exactly one result; the `select` loop receives the two
results in a non-deterministic order, modelled by `fetchOrder`. -/

inductive fetchOrder where
  | statusFirst
  | informationFirst
deriving DecidableEq, Repr

structure loopState where
  informationMap : List (String × gbfsStationInformationStation)
  statusMap : List (String × gbfsStationStatusStation)
  err : Option goError
deriving DecidableEq, Repr

/-- The `case statusResult := <-statusChannel` arm of the select loop. -/
def applyStatusResult (st : loopState) (r : stationStatusResult) : loopState :=
  match r.Error with
  | some e => { st with err := some e }
  | none =>
      let m := r.Status.Data.Stations.foldl
        (fun m station => mapSet m station.StationID station) st.statusMap
      { st with statusMap := m }

/-- The `case informationResult := <-informationChannel` arm of the select
loop. -/
def applyInformationResult (st : loopState) (r : stationInformationResult) :
    loopState :=
  match r.Error with
  | some e => { st with err := some e }
  | none =>
      let m := r.Information.Data.Stations.foldl
        (fun m station => mapSet m station.StationID station) st.informationMap
      { st with informationMap := m }

/-- State after the two-iteration select loop: both results processed, in
arrival order, starting from the two fresh empty maps and a `nil` error. -/
def fetchDataLoop (statusResult : stationStatusResult)
    (informationResult : stationInformationResult) (order : fetchOrder) :
    loopState :=
  match order with
  | .statusFirst =>
      applyInformationResult
        (applyStatusResult ⟨[], [], none⟩ statusResult) informationResult
  | .informationFirst =>
      applyStatusResult
        (applyInformationResult ⟨[], [], none⟩ informationResult) statusResult

/-- The map built from a decoded information feed (what the loop stores when
the information unit succeeds). -/
def buildInformationMap (stations : List gbfsStationInformationStation) :
    List (String × gbfsStationInformationStation) :=
  stations.foldl (fun m station => mapSet m station.StationID station) []

/-- The map built from a decoded status feed. -/
def buildStatusMap (stations : List gbfsStationStatusStation) :
    List (String × gbfsStationStatusStation) :=
  stations.foldl (fun m station => mapSet m station.StationID station) []

namespace Server

/-- The joined, externally visible station record of the web-server
variant. -/
structure stationData where
  StationID : String
  Name : String
  NumberOfBikesAvailable : Int
  NumberOfDocksAvailable : Int
deriving DecidableEq, Repr

/-- Body of the web-server join loop for one information-map entry: emit a
`stationData` into the result map when the status map has the id, otherwise
only log. -/
def joinStep (statusMap : List (String × gbfsStationStatusStation))
    (stations : List (String × stationData))
    (entry : String × gbfsStationInformationStation) :
    List (String × stationData) :=
  match mapGet statusMap entry.1 with
  | none => stations
  | some status =>
      mapSet stations entry.1
        { StationID := entry.1
          Name := entry.2.Name
          NumberOfBikesAvailable := status.NumberOfBikesAvailable
          NumberOfDocksAvailable := status.NumberOfDocksAvailable }

/-- The join loop of the web-server `fetchData` over all information-map
entries. -/
def joinStations
    (informationMap : List (String × gbfsStationInformationStation))
    (statusMap : List (String × gbfsStationStatusStation)) :
    List (String × stationData) :=
  informationMap.foldl (joinStep statusMap) []

/-- `fetchData` of the web-server variant: on any unit error return
`nil, err`; otherwise return the joined map and a `nil` error. -/
def fetchData (statusResult : stationStatusResult)
    (informationResult : stationInformationResult) (order : fetchOrder) :
    Except goError (List (String × stationData)) :=
  let st := fetchDataLoop statusResult informationResult order
  match st.err with
  | some e => .error e
  | none => .ok (joinStations st.informationMap st.statusMap)

end Server

namespace Tview

/-- The joined station record of the terminal variant (no id field). -/
structure stationData where
  Name : String
  NumberOfBikesAvailable : Int
  NumberOfDocksAvailable : Int
deriving DecidableEq, Repr

def fetchFailedMessage : String :=
  " 🚒 Vi klarte ikke å hente data. Vent litt, så prøver vi igjen!"

def missingStatusMessage : String :=
  " 🙈 Vi mangler status for noen stasjoner. Vent litt, så prøver vi igjen!"

/-- Body of the terminal join loop for one information-map entry: append a
`stationData` when the status map has the id; record the advisory message
when it has none. -/
def joinStep (statusMap : List (String × gbfsStationStatusStation))
    (acc : List stationData × String)
    (entry : String × gbfsStationInformationStation) :
    List stationData × String :=
  match mapGet statusMap entry.1 with
  | none => (acc.1, missingStatusMessage)
  | some status =>
      (acc.1 ++
        [{ Name := entry.2.Name
           NumberOfBikesAvailable := status.NumberOfBikesAvailable
           NumberOfDocksAvailable := status.NumberOfDocksAvailable }],
       acc.2)

/-- The join loop of the terminal `fetchData` over all information-map
entries. -/
def joinStations
    (informationMap : List (String × gbfsStationInformationStation))
    (statusMap : List (String × gbfsStationStatusStation)) :
    List stationData × String :=
  informationMap.foldl (joinStep statusMap) ([], "")

/-- Lexicographic comparison of character lists by codepoint. Go compares
strings byte-wise over their UTF-8 encoding, which orders exactly like the
codepoint sequence, so this is the order `sort.Slice`'s `Name <` uses
(in its non-strict form). -/
def charListLe : List Char → List Char → Bool
  | [], _ => true
  | _ :: _, [] => false
  | c₁ :: r₁, c₂ :: r₂ =>
      if c₁.toNat < c₂.toNat then true
      else if c₂.toNat < c₁.toNat then false
      else charListLe r₁ r₂

/-- Name comparison used by the sort at the end of the terminal
`fetchData`. -/
def nameLe (a b : stationData) : Bool :=
  charListLe a.Name.data b.Name.data

/-- Insertion of one station into a by-name-sorted list. -/
def insertByName (s : stationData) : List stationData → List stationData
  | [] => [s]
  | t :: rest => if nameLe s t then s :: t :: rest else t :: insertByName s rest

/-- `sort.Slice(stations, func(i, j) { stations[i].Name < stations[j].Name })`:
an unstable comparison sort whose contract is a by-name-sorted permutation
of the input; realised here as insertion sort by name. -/
def sortStations : List stationData → List stationData
  | [] => []
  | s :: rest => insertByName s (sortStations rest)

/-- `fetchData` of the terminal variant: on any unit error return the `nil`
slice, the failure message and the error; otherwise the joined slice sorted
by name, the advisory message (empty if none missing) and a `nil` error. -/
def fetchData (statusResult : stationStatusResult)
    (informationResult : stationInformationResult) (order : fetchOrder) :
    List stationData × String × Option goError :=
  let st := fetchDataLoop statusResult informationResult order
  match st.err with
  | some e => ([], fetchFailedMessage, some e)
  | none =>
      let joined := joinStations st.informationMap st.statusMap
      (sortStations joined.1, joined.2, none)

end Tview

namespace CLI

/-- `fetchData` of `main.go`: always returns both lookup maps (whatever the
successful units populated) together with the recorded error. -/
def fetchData (statusResult : stationStatusResult)
    (informationResult : stationInformationResult) (order : fetchOrder) :
    List (String × gbfsStationInformationStation)
      × List (String × gbfsStationStatusStation) × Option goError :=
  let st := fetchDataLoop statusResult informationResult order
  (st.informationMap, st.statusMap, st.err)

end CLI

namespace Seq

/-- Sequential `fetchStationInformation`: fetch, then decode; both failure
kinds are returned as the error. -/
def fetchStationInformation (http : httpResult)
    (unmarshal : String → Except goError gbfsStationInformation) :
    gbfsStationInformation × Option goError :=
  match CLI.fetch stationInformationAddress http with
  | .error e => (gbfsStationInformation.zero, some e)
  | .ok bytes =>
      match unmarshal bytes with
      | .error e => (gbfsStationInformation.zero, some e)
      | .ok information => (information, none)

/-- Sequential `fetchStationStatus`, exactly as written in the source: both
`return stationStatus, nil` statements discard the fetch error and the
decode error, so the returned error is always `nil`. -/
def fetchStationStatus (http : httpResult)
    (unmarshal : String → Except goError gbfsStationStatus) :
    gbfsStationStatus × Option goError :=
  match CLI.fetch stationStatusAddress http with
  | .error _ => (gbfsStationStatus.zero, none)
  | .ok bytes =>
      match unmarshal bytes with
      | .error _ => (gbfsStationStatus.zero, none)
      | .ok status => (status, none)

end Seq

namespace Server

/-! ### The stations cache (go-cache) and the refresh cycle

The program uses `patrickmn/go-cache` with a single key (`cacheKey =
"stations"`).  The store is created by `cache.New(cache.NoExpiration,
cacheCleanupInterval)` and written by `Set(cacheKey, stations,
cache.DefaultExpiration)`.  Per the library semantics: `Set` with
`DefaultExpiration` stamps the item with the store's default expiration
(here `NoExpiration`, i.e. no deadline); `Get` misses only if the key was
never set or the item's deadline has passed; the cleanup goroutine deletes
only items whose deadline has passed.  The model keeps just the one key. -/

/-- One stored item: the object and its optional expiration deadline
(`none` models go-cache's `NoExpiration`). -/
structure cacheItem where
  Object : List (String × stationData)
  Expiration : Option Nat
deriving DecidableEq, Repr

/-- The store: its default expiration and the item at `cacheKey`, if any. -/
structure cacheStore where
  defaultExpiration : Option Nat
  item : Option cacheItem
deriving DecidableEq, Repr

/-- `cache.New(cache.NoExpiration, cacheCleanupInterval)`: empty store whose
default expiration is "never". -/
def cacheNew : cacheStore :=
  { defaultExpiration := none, item := none }

/-- `stationsCache.Set(cacheKey, stations, cache.DefaultExpiration)`. -/
def cacheSet (c : cacheStore) (stations : List (String × stationData)) :
    cacheStore :=
  { c with item := some { Object := stations, Expiration := c.defaultExpiration } }

/-- `stationsCache.Get(cacheKey)` at time `now`: the stored value, unless
absent or expired. -/
def cacheGet (c : cacheStore) (now : Nat) :
    Option (List (String × stationData)) :=
  match c.item with
  | none => none
  | some it =>
      match it.Expiration with
      | none => some it.Object
      | some deadline => if now < deadline then some it.Object else none

/-- The cleanup goroutine's `DeleteExpired` at time `now`: removes the item
only if its deadline has passed. -/
def cacheDeleteExpired (c : cacheStore) (now : Nat) : cacheStore :=
  match c.item with
  | none => c
  | some it =>
      match it.Expiration with
      | none => c
      | some deadline => if now < deadline then c else { c with item := none }

/-- One iteration of the `updateStationsCache` loop body, given this cycle's
`fetchData` result: on error only log, on success `Set` the joined map. -/
def updateStationsCacheOnce (c : cacheStore)
    (result : Except goError (List (String × stationData))) : cacheStore :=
  match result with
  | .error _ => c
  | .ok stations => cacheSet c stations

/-- An event acting on the stations cache over the process lifetime: a
refresh-cycle iteration (with its `fetchData` outcome) or a cleanup tick. -/
inductive cacheEvent where
  | refresh (result : Except goError (List (String × stationData)))
  | cleanup (now : Nat)

/-- Effect of one cache event. -/
def stepCache (c : cacheStore) (e : cacheEvent) : cacheStore :=
  match e with
  | .refresh result => updateStationsCacheOnce c result
  | .cleanup now => cacheDeleteExpired c now

/-- Cache state after a sequence of events, starting from the store made in
`main`. -/
def runCache (events : List cacheEvent) : cacheStore :=
  events.foldl stepCache cacheNew

/-- The `AllStations` handler, reduced to its observable response: HTTP
status code and optional body (the cached stations as a list). A cache miss
answers 500 with no body. -/
def AllStations (c : cacheStore) (now : Nat) :
    Int × Option (List stationData) :=
  match cacheGet c now with
  | none => (500, none)
  | some cachedStations => (200, some (cachedStations.map Prod.snd))

/-- The `SingleStation` handler for a given path id: 500 on cache miss, 404
when the id is not in the cached map, otherwise 200 with the station. -/
def SingleStation (c : cacheStore) (now : Nat) (stationID : String) :
    Int × Option stationData :=
  match cacheGet c now with
  | none => (500, none)
  | some cachedStations =>
      match mapGet cachedStations stationID with
      | some station => (200, some station)
      | none => (404, none)

end Server

/-! ## Lemmas about the association-list map operations -/

theorem mapKeys_nil {α : Type} : mapKeys ([] : List (String × α)) = [] := rfl

theorem mapKeys_cons {α : Type} (k : String) (v : α) (m : List (String × α)) :
    mapKeys ((k, v) :: m) = k :: mapKeys m := rfl

theorem mapGet_mapSet {α : Type} (m : List (String × α)) (k k' : String)
    (v : α) :
    mapGet (mapSet m k v) k' = if k = k' then some v else mapGet m k' := by
  induction m with
  | nil =>
      by_cases h : k = k' <;> simp [mapSet, mapGet, h]
  | cons head rest ih =>
      obtain ⟨k₀, v₀⟩ := head
      by_cases hk : k₀ = k
      · subst hk
        by_cases h : k₀ = k'
        · subst h
          simp [mapSet, mapGet]
        · simp [mapSet, mapGet, h]
      · have hk2 : ¬ k = k₀ := fun hh => hk hh.symm
        by_cases h : k₀ = k'
        · subst h
          simp [mapSet, mapGet, hk, hk2]
        · simp [mapSet, mapGet, hk, h, ih]

theorem mem_mapSet {α : Type} {m : List (String × α)} {k a : String}
    {v b : α} (h : (a, b) ∈ mapSet m k v) : (a, b) ∈ m ∨ (a = k ∧ b = v) := by
  induction m with
  | nil =>
      simp only [mapSet, List.mem_singleton] at h
      injection h with h1 h2
      exact Or.inr ⟨h1, h2⟩
  | cons head rest ih =>
      obtain ⟨k₀, v₀⟩ := head
      by_cases hk : k₀ = k
      · rw [mapSet, if_pos hk] at h
        rcases List.mem_cons.mp h with h1 | h1
        · injection h1 with h2 h3
          exact Or.inr ⟨h2, h3⟩
        · exact Or.inl (List.mem_cons_of_mem _ h1)
      · rw [mapSet, if_neg hk] at h
        rcases List.mem_cons.mp h with h1 | h1
        · exact Or.inl (List.mem_cons.mpr (Or.inl h1))
        · rcases ih h1 with h2 | h2
          · exact Or.inl (List.mem_cons_of_mem _ h2)
          · exact Or.inr h2

theorem mapKeys_mapSet_of_mem {α : Type} {m : List (String × α)} {k : String}
    (v : α) (h : k ∈ mapKeys m) : mapKeys (mapSet m k v) = mapKeys m := by
  induction m with
  | nil => simp [mapKeys_nil] at h
  | cons head rest ih =>
      obtain ⟨k₀, v₀⟩ := head
      by_cases hk : k₀ = k
      · rw [mapSet, if_pos hk, mapKeys_cons, mapKeys_cons, hk]
      · rw [mapKeys_cons, List.mem_cons] at h
        rcases h with h1 | h1
        · exact absurd h1.symm hk
        · rw [mapSet, if_neg hk, mapKeys_cons, mapKeys_cons, ih h1]

theorem mapKeys_mapSet_of_not_mem {α : Type} {m : List (String × α)}
    {k : String} (v : α) (h : k ∉ mapKeys m) :
    mapKeys (mapSet m k v) = mapKeys m ++ [k] := by
  induction m with
  | nil => rw [mapSet, mapKeys_cons, mapKeys_nil]; rfl
  | cons head rest ih =>
      obtain ⟨k₀, v₀⟩ := head
      rw [mapKeys_cons, List.mem_cons] at h
      push_neg at h
      obtain ⟨h₁, h₂⟩ := h
      have hk : ¬ k₀ = k := fun hh => h₁ hh.symm
      rw [mapSet, if_neg hk, mapKeys_cons, mapKeys_cons, ih h₂,
        List.cons_append]

theorem nodup_mapKeys_mapSet {α : Type} {m : List (String × α)} (k : String)
    (v : α) (h : (mapKeys m).Nodup) : (mapKeys (mapSet m k v)).Nodup := by
  by_cases hk : k ∈ mapKeys m
  · rwa [mapKeys_mapSet_of_mem v hk]
  · rw [mapKeys_mapSet_of_not_mem v hk]
    simpa [List.nodup_append] using ⟨h, hk⟩

theorem mapGet_eq_some_of_mem {α : Type} {m : List (String × α)} {k : String}
    {v : α} (hnd : (mapKeys m).Nodup) (h : (k, v) ∈ m) :
    mapGet m k = some v := by
  induction m with
  | nil => simp at h
  | cons head rest ih =>
      obtain ⟨k₀, v₀⟩ := head
      rw [mapKeys_cons, List.nodup_cons] at hnd
      rcases List.mem_cons.mp h with h1 | h1
      · injection h1 with h2 h3
        subst h2
        subst h3
        simp [mapGet]
      · by_cases hk : k₀ = k
        · subst hk
          exact absurd (List.mem_map_of_mem Prod.fst h1) hnd.1
        · rw [mapGet, if_neg hk]
          exact ih hnd.2 h1

theorem mem_of_mapGet_eq_some {α : Type} {m : List (String × α)} {k : String}
    {v : α} (h : mapGet m k = some v) : (k, v) ∈ m := by
  induction m with
  | nil => simp [mapGet] at h
  | cons head rest ih =>
      obtain ⟨k₀, v₀⟩ := head
      by_cases hk : k₀ = k
      · subst hk
        rw [mapGet, if_pos rfl] at h
        injection h with h1
        subst h1
        exact List.mem_cons_self _ _
      · rw [mapGet, if_neg hk] at h
        exact List.mem_cons_of_mem _ (ih h)

theorem mapGet_isSome_iff {α : Type} (m : List (String × α)) (k : String) :
    (mapGet m k).isSome = true ↔ k ∈ mapKeys m := by
  induction m with
  | nil => simp [mapGet, mapKeys_nil]
  | cons head rest ih =>
      obtain ⟨k₀, v₀⟩ := head
      by_cases hk : k₀ = k
      · subst hk
        simp [mapGet, mapKeys_cons]
      · have hk2 : ¬ k = k₀ := fun hh => hk hh.symm
        rw [mapGet, if_neg hk, mapKeys_cons]
        simp only [List.mem_cons]
        constructor
        · intro hsome
          exact Or.inr (ih.mp hsome)
        · intro hmem
          rcases hmem with h1 | h1
          · exact absurd h1 hk2
          · exact ih.mpr h1

/-! ## Lemmas about the built lookup maps -/

theorem nodup_mapKeys_foldl_mapSet {α : Type} (key : α → String) :
    ∀ (l : List α) (m : List (String × α)), (mapKeys m).Nodup →
      (mapKeys (l.foldl (fun m s => mapSet m (key s) s) m)).Nodup := by
  intro l
  induction l with
  | nil => intro m hm; simpa using hm
  | cons s rest ih =>
      intro m hm
      exact ih _ (nodup_mapKeys_mapSet (key s) s hm)

theorem nodup_mapKeys_buildInformationMap
    (stations : List gbfsStationInformationStation) :
    (mapKeys (buildInformationMap stations)).Nodup :=
  nodup_mapKeys_foldl_mapSet _ stations [] (by simp [mapKeys])

theorem nodup_mapKeys_buildStatusMap
    (stations : List gbfsStationStatusStation) :
    (mapKeys (buildStatusMap stations)).Nodup :=
  nodup_mapKeys_foldl_mapSet _ stations [] (by simp [mapKeys])

/-! ## Characterisations of the select loop -/

theorem fetchDataLoop_success (sr : stationStatusResult)
    (ir : stationInformationResult) (order : fetchOrder)
    (hs : sr.Error = none) (hi : ir.Error = none) :
    fetchDataLoop sr ir order =
      ⟨buildInformationMap ir.Information.Data.Stations,
       buildStatusMap sr.Status.Data.Stations, none⟩ := by
  cases order <;>
    simp [fetchDataLoop, applyStatusResult, applyInformationResult, hs, hi,
      buildInformationMap, buildStatusMap]

theorem fetchDataLoop_status_failed (sr : stationStatusResult)
    (ir : stationInformationResult) (order : fetchOrder) (e : goError)
    (hs : sr.Error = some e) (hi : ir.Error = none) :
    fetchDataLoop sr ir order =
      ⟨buildInformationMap ir.Information.Data.Stations, [], some e⟩ := by
  cases order <;>
    simp [fetchDataLoop, applyStatusResult, applyInformationResult, hs, hi,
      buildInformationMap]

theorem fetchDataLoop_information_failed (sr : stationStatusResult)
    (ir : stationInformationResult) (order : fetchOrder) (e : goError)
    (hs : sr.Error = none) (hi : ir.Error = some e) :
    fetchDataLoop sr ir order =
      ⟨[], buildStatusMap sr.Status.Data.Stations, some e⟩ := by
  cases order <;>
    simp [fetchDataLoop, applyStatusResult, applyInformationResult, hs, hi,
      buildStatusMap]

theorem fetchDataLoop_both_failed (sr : stationStatusResult)
    (ir : stationInformationResult) (es ei : goError)
    (hs : sr.Error = some es) (hi : ir.Error = some ei) :
    fetchDataLoop sr ir .statusFirst = ⟨[], [], some ei⟩ ∧
    fetchDataLoop sr ir .informationFirst = ⟨[], [], some es⟩ := by
  constructor <;>
    simp [fetchDataLoop, applyStatusResult, applyInformationResult, hs, hi]

/-! ## Unfoldings of the `fetchData` variants on resolved loop states -/

theorem fetchData_server_ok (sr : stationStatusResult)
    (ir : stationInformationResult) (order : fetchOrder)
    (hs : sr.Error = none) (hi : ir.Error = none) :
    Server.fetchData sr ir order =
      .ok (Server.joinStations (buildInformationMap ir.Information.Data.Stations)
            (buildStatusMap sr.Status.Data.Stations)) := by
  unfold Server.fetchData
  rw [fetchDataLoop_success sr ir order hs hi]

theorem fetchData_tview_ok (sr : stationStatusResult)
    (ir : stationInformationResult) (order : fetchOrder)
    (hs : sr.Error = none) (hi : ir.Error = none) :
    Tview.fetchData sr ir order =
      (Tview.sortStations
         (Tview.joinStations (buildInformationMap ir.Information.Data.Stations)
            (buildStatusMap sr.Status.Data.Stations)).1,
       (Tview.joinStations (buildInformationMap ir.Information.Data.Stations)
          (buildStatusMap sr.Status.Data.Stations)).2,
       none) := by
  unfold Tview.fetchData
  rw [fetchDataLoop_success sr ir order hs hi]

/-! ## Characterisations of the two join loops -/

theorem mem_foldl_joinStep
    (statusMap : List (String × gbfsStationStatusStation)) :
    ∀ (entries : List (String × gbfsStationInformationStation))
      (acc : List (String × Server.stationData)) (id : String)
      (s : Server.stationData),
      (id, s) ∈ entries.foldl (Server.joinStep statusMap) acc →
      (id, s) ∈ acc ∨
        ∃ information status,
          (id, information) ∈ entries ∧ mapGet statusMap id = some status ∧
          s = { StationID := id
                Name := information.Name
                NumberOfBikesAvailable := status.NumberOfBikesAvailable
                NumberOfDocksAvailable := status.NumberOfDocksAvailable } := by
  intro entries
  induction entries with
  | nil =>
      intro acc id s h
      exact Or.inl h
  | cons e rest ih =>
      intro acc id s h
      rw [List.foldl_cons] at h
      rcases ih _ id s h with h1 | h1
      · cases hst : mapGet statusMap e.1 with
        | none =>
            simp only [Server.joinStep, hst] at h1
            exact Or.inl h1
        | some status =>
            simp only [Server.joinStep, hst] at h1
            rcases mem_mapSet h1 with h2 | h2
            · exact Or.inl h2
            · obtain ⟨hid, hs⟩ := h2
              subst hid
              exact Or.inr
                ⟨e.2, status, List.mem_cons.mpr (Or.inl Prod.mk.eta), hst, hs⟩
      · obtain ⟨information, status, hmem, hget, hs⟩ := h1
        exact Or.inr ⟨information, status, List.mem_cons_of_mem _ hmem, hget, hs⟩

theorem mem_joinStations_server
    {informationMap : List (String × gbfsStationInformationStation)}
    {statusMap : List (String × gbfsStationStatusStation)} {id : String}
    {s : Server.stationData}
    (h : (id, s) ∈ Server.joinStations informationMap statusMap) :
    ∃ information status,
      (id, information) ∈ informationMap ∧ mapGet statusMap id = some status ∧
      s = { StationID := id
            Name := information.Name
            NumberOfBikesAvailable := status.NumberOfBikesAvailable
            NumberOfDocksAvailable := status.NumberOfDocksAvailable } := by
  rw [Server.joinStations] at h
  rcases mem_foldl_joinStep statusMap informationMap [] id s h with h1 | h1
  · simp at h1
  · exact h1

/-- The `stationData` the terminal join emits for one information-map entry,
if its id has a status. -/
def joinedOf (statusMap : List (String × gbfsStationStatusStation))
    (e : String × gbfsStationInformationStation) : Option Tview.stationData :=
  (mapGet statusMap e.1).map
    (fun status =>
      { Name := e.2.Name
        NumberOfBikesAvailable := status.NumberOfBikesAvailable
        NumberOfDocksAvailable := status.NumberOfDocksAvailable })

theorem foldl_joinStep_tview_fst
    (statusMap : List (String × gbfsStationStatusStation)) :
    ∀ (entries : List (String × gbfsStationInformationStation))
      (acc : List Tview.stationData × String),
      (entries.foldl (Tview.joinStep statusMap) acc).1 =
        acc.1 ++ entries.filterMap (joinedOf statusMap) := by
  intro entries
  induction entries with
  | nil => intro acc; simp
  | cons e rest ih =>
      intro acc
      rw [List.foldl_cons]
      cases hst : mapGet statusMap e.1 with
      | none =>
          have hj : joinedOf statusMap e = none := by
            rw [joinedOf, hst]; rfl
          rw [List.filterMap_cons_none hj]
          simp only [Tview.joinStep, hst]
          exact ih _
      | some status =>
          have hj : joinedOf statusMap e =
              some { Name := e.2.Name
                     NumberOfBikesAvailable := status.NumberOfBikesAvailable
                     NumberOfDocksAvailable := status.NumberOfDocksAvailable } := by
            rw [joinedOf, hst]; rfl
          rw [List.filterMap_cons_some hj]
          simp only [Tview.joinStep, hst]
          rw [ih _]
          simp

theorem joinStations_tview_fst
    (informationMap : List (String × gbfsStationInformationStation))
    (statusMap : List (String × gbfsStationStatusStation)) :
    (Tview.joinStations informationMap statusMap).1 =
      informationMap.filterMap (joinedOf statusMap) := by
  rw [Tview.joinStations, foldl_joinStep_tview_fst]
  rfl

theorem foldl_joinStep_tview_snd
    (statusMap : List (String × gbfsStationStatusStation)) :
    ∀ (entries : List (String × gbfsStationInformationStation))
      (acc : List Tview.stationData × String),
      (entries.foldl (Tview.joinStep statusMap) acc).2 =
        if entries.any (fun e => (mapGet statusMap e.1).isNone)
        then Tview.missingStatusMessage else acc.2 := by
  intro entries
  induction entries with
  | nil => intro acc; simp
  | cons e rest ih =>
      intro acc
      rw [List.foldl_cons]
      cases hst : mapGet statusMap e.1 with
      | none => simp [Tview.joinStep, hst, ih]
      | some status =>
          simp only [Tview.joinStep, hst]
          rw [ih]
          have hX : ((e :: rest).any fun y => (mapGet statusMap y.1).isNone)
              = (rest.any fun y => (mapGet statusMap y.1).isNone) := by
            show ((mapGet statusMap e.1).isNone
                || rest.any fun y => (mapGet statusMap y.1).isNone)
              = rest.any fun y => (mapGet statusMap y.1).isNone
            rw [hst, Option.isNone_some, Bool.false_or]
          rw [hX]

theorem joinStations_tview_snd
    (informationMap : List (String × gbfsStationInformationStation))
    (statusMap : List (String × gbfsStationStatusStation)) :
    (Tview.joinStations informationMap statusMap).2 =
      if informationMap.any (fun e => (mapGet statusMap e.1).isNone)
      then Tview.missingStatusMessage else "" := by
  rw [Tview.joinStations, foldl_joinStep_tview_snd]

/-! ## The sort at the end of the terminal `fetchData` -/

theorem charListLe_trans : ∀ l₁ l₂ l₃ : List Char,
    Tview.charListLe l₁ l₂ = true → Tview.charListLe l₂ l₃ = true →
    Tview.charListLe l₁ l₃ = true := by
  intro l₁
  induction l₁ with
  | nil =>
      intro l₂ l₃ _ _
      rfl
  | cons c₁ r₁ ih =>
      intro l₂ l₃ h₁₂ h₂₃
      cases l₂ with
      | nil => simp [Tview.charListLe] at h₁₂
      | cons c₂ r₂ =>
          cases l₃ with
          | nil => simp [Tview.charListLe] at h₂₃
          | cons c₃ r₃ =>
              simp only [Tview.charListLe] at h₁₂ h₂₃ ⊢
              by_cases ha : c₁.toNat < c₂.toNat
              · by_cases hb : c₂.toNat < c₃.toNat
                · rw [if_pos (show c₁.toNat < c₃.toNat by omega)]
                · by_cases hb' : c₃.toNat < c₂.toNat
                  · rw [if_neg hb, if_pos hb'] at h₂₃
                    exact Bool.noConfusion h₂₃
                  · rw [if_pos (show c₁.toNat < c₃.toNat by omega)]
              · by_cases ha' : c₂.toNat < c₁.toNat
                · rw [if_neg ha, if_pos ha'] at h₁₂
                  exact Bool.noConfusion h₁₂
                · rw [if_neg ha, if_neg ha'] at h₁₂
                  by_cases hb : c₂.toNat < c₃.toNat
                  · rw [if_pos (show c₁.toNat < c₃.toNat by omega)]
                  · by_cases hb' : c₃.toNat < c₂.toNat
                    · rw [if_neg hb, if_pos hb'] at h₂₃
                      exact Bool.noConfusion h₂₃
                    · rw [if_neg hb, if_neg hb'] at h₂₃
                      rw [if_neg (show ¬ c₁.toNat < c₃.toNat by omega),
                        if_neg (show ¬ c₃.toNat < c₁.toNat by omega)]
                      exact ih r₂ r₃ h₁₂ h₂₃

theorem charListLe_total : ∀ l₁ l₂ : List Char,
    (Tview.charListLe l₁ l₂ || Tview.charListLe l₂ l₁) = true := by
  intro l₁
  induction l₁ with
  | nil =>
      intro l₂
      rfl
  | cons c₁ r₁ ih =>
      intro l₂
      cases l₂ with
      | nil => simp [Tview.charListLe]
      | cons c₂ r₂ =>
          by_cases h₁ : c₁.toNat < c₂.toNat
          · simp [Tview.charListLe, h₁]
          · by_cases h₂ : c₂.toNat < c₁.toNat
            · simp [Tview.charListLe, h₁, h₂]
            · simp only [Tview.charListLe, if_neg h₁, if_neg h₂]
              exact ih r₂

theorem nameLe_trans : ∀ a b c : Tview.stationData,
    Tview.nameLe a b → Tview.nameLe b c → Tview.nameLe a c := by
  intro a b c hab hbc
  exact charListLe_trans _ _ _ hab hbc

theorem nameLe_total : ∀ a b : Tview.stationData,
    Tview.nameLe a b || Tview.nameLe b a := by
  intro a b
  exact charListLe_total _ _

theorem insertByName_perm (s : Tview.stationData) (l : List Tview.stationData) :
    (Tview.insertByName s l).Perm (s :: l) := by
  induction l with
  | nil => exact List.Perm.refl _
  | cons t rest ih =>
      rw [Tview.insertByName]
      by_cases h : Tview.nameLe s t
      · rw [if_pos h]
      · rw [if_neg h]
        exact (ih.cons t).trans (List.Perm.swap s t rest)

theorem sortStations_perm (l : List Tview.stationData) :
    (Tview.sortStations l).Perm l := by
  induction l with
  | nil => exact List.Perm.refl _
  | cons s rest ih =>
      rw [Tview.sortStations]
      exact (insertByName_perm s (Tview.sortStations rest)).trans (ih.cons s)

theorem mem_sortStations {s : Tview.stationData} {l : List Tview.stationData} :
    s ∈ Tview.sortStations l ↔ s ∈ l :=
  (sortStations_perm l).mem_iff

theorem insertByName_pairwise {s : Tview.stationData}
    {l : List Tview.stationData} (h : l.Pairwise (fun a b => Tview.nameLe a b)) :
    (Tview.insertByName s l).Pairwise (fun a b => Tview.nameLe a b) := by
  induction l with
  | nil => simp [Tview.insertByName]
  | cons t rest ih =>
      rw [List.pairwise_cons] at h
      obtain ⟨ht, hrest⟩ := h
      rw [Tview.insertByName]
      by_cases hle : Tview.nameLe s t
      · rw [if_pos hle, List.pairwise_cons]
        refine ⟨?_, List.pairwise_cons.mpr ⟨ht, hrest⟩⟩
        intro b hb
        rcases List.mem_cons.mp hb with hb | hb
        · rw [hb]; exact hle
        · exact nameLe_trans s t b hle (ht b hb)
      · rw [if_neg hle, List.pairwise_cons]
        have hts : Tview.nameLe t s := by
          have := nameLe_total s t
          rw [Bool.or_eq_true] at this
          rcases this with h1 | h1
          · exact absurd h1 hle
          · exact h1
        refine ⟨?_, ih hrest⟩
        intro b hb
        rcases (insertByName_perm s rest).mem_iff.mp hb with hb'
        rcases List.mem_cons.mp hb' with hb' | hb'
        · rw [hb']; exact hts
        · exact ht b hb'

theorem sortStations_pairwise (l : List Tview.stationData) :
    (Tview.sortStations l).Pairwise (fun a b => Tview.nameLe a b) := by
  induction l with
  | nil => simp [Tview.sortStations]
  | cons s rest ih =>
      rw [Tview.sortStations]
      exact insertByName_pairwise ih


/-! ## Permutation facts -/

theorem any_eq_of_perm {α : Type} {l₁ l₂ : List α} (h : l₁.Perm l₂)
    (p : α → Bool) : l₁.any p = l₂.any p := by
  cases hb : l₂.any p with
  | false =>
      rw [List.any_eq_false] at hb ⊢
      intro x hx
      exact hb x (h.mem_iff.mp hx)
  | true =>
      rw [List.any_eq_true] at hb ⊢
      obtain ⟨x, hx, hpx⟩ := hb
      exact ⟨x, h.mem_iff.mpr hx, hpx⟩

/-! ## The cache never expires at the parameters used by `main` -/

/-- Invariant of the stations cache as configured by `main`: the default
expiration is "never" and any stored item carries no deadline. -/
def cacheNeverExpires (c : Server.cacheStore) : Prop :=
  c.defaultExpiration = none ∧ ∀ it, c.item = some it → it.Expiration = none

theorem cacheNeverExpires_cacheNew : cacheNeverExpires Server.cacheNew := by
  refine ⟨rfl, ?_⟩
  intro it h
  simp [Server.cacheNew] at h

theorem cacheDeleteExpired_eq_self {c : Server.cacheStore}
    (h : cacheNeverExpires c) (now : Nat) :
    Server.cacheDeleteExpired c now = c := by
  obtain ⟨hd, hit⟩ := h
  unfold Server.cacheDeleteExpired
  cases hc : c.item with
  | none => rfl
  | some it => simp [hit it hc]

theorem stepCache_never_expires {c : Server.cacheStore}
    (h : cacheNeverExpires c) (e : Server.cacheEvent) :
    cacheNeverExpires (Server.stepCache c e) := by
  obtain ⟨hd, hit⟩ := h
  cases e with
  | refresh result =>
      cases result with
      | error err => exact ⟨hd, hit⟩
      | ok stations =>
          refine ⟨hd, ?_⟩
          intro it hsome
          simp only [Server.stepCache, Server.updateStationsCacheOnce,
            Server.cacheSet, Option.some.injEq] at hsome
          rw [← hsome]
          exact hd
  | cleanup now =>
      rw [Server.stepCache, cacheDeleteExpired_eq_self ⟨hd, hit⟩ now]
      exact ⟨hd, hit⟩

theorem stepCache_item_isSome {c : Server.cacheStore}
    (h : cacheNeverExpires c) (hs : c.item.isSome) (e : Server.cacheEvent) :
    (Server.stepCache c e).item.isSome := by
  cases e with
  | refresh result =>
      cases result with
      | error err => exact hs
      | ok stations =>
          simp [Server.stepCache, Server.updateStationsCacheOnce,
            Server.cacheSet]
  | cleanup now =>
      rw [Server.stepCache, cacheDeleteExpired_eq_self h now]
      exact hs

theorem foldl_stepCache_never_expires :
    ∀ (events : List Server.cacheEvent) (c : Server.cacheStore),
      cacheNeverExpires c → cacheNeverExpires (events.foldl Server.stepCache c)
  | [], _, h => h
  | e :: rest, c, h =>
      foldl_stepCache_never_expires rest _ (stepCache_never_expires h e)

theorem foldl_stepCache_isSome :
    ∀ (events : List Server.cacheEvent) (c : Server.cacheStore),
      cacheNeverExpires c → c.item.isSome →
      ((events.foldl Server.stepCache c).item.isSome)
  | [], _, _, hs => hs
  | e :: rest, c, h, hs =>
      foldl_stepCache_isSome rest _ (stepCache_never_expires h e)
        (stepCache_item_isSome h hs e)

theorem cacheGet_isSome {c : Server.cacheStore} (h : cacheNeverExpires c)
    (hs : c.item.isSome) (now : Nat) :
    (Server.cacheGet c now).isSome := by
  obtain ⟨hd, hit⟩ := h
  unfold Server.cacheGet
  cases hc : c.item with
  | none =>
      rw [hc] at hs
      simp at hs
  | some it => simp [hit it hc]

/-! ## Error-freeness of the select loop and inversion of the server join -/

theorem fetchDataLoop_err_none_iff (sr : stationStatusResult)
    (ir : stationInformationResult) (order : fetchOrder) :
    (fetchDataLoop sr ir order).err = none ↔
      sr.Error = none ∧ ir.Error = none := by
  cases order <;> cases hs : sr.Error <;> cases hi : ir.Error <;>
    simp [fetchDataLoop, applyStatusResult, applyInformationResult, hs, hi]

theorem fetchData_server_ok_inv {sr : stationStatusResult}
    {ir : stationInformationResult} {order : fetchOrder}
    {stations : List (String × Server.stationData)}
    (hok : Server.fetchData sr ir order = .ok stations) :
    sr.Error = none ∧ ir.Error = none ∧
    stations = Server.joinStations
      (buildInformationMap ir.Information.Data.Stations)
      (buildStatusMap sr.Status.Data.Stations) := by
  simp only [Server.fetchData] at hok
  cases herr : (fetchDataLoop sr ir order).err with
  | some e =>
      rw [herr] at hok
      simp at hok
  | none =>
      rw [herr] at hok
      simp only [Except.ok.injEq] at hok
      obtain ⟨h1, h2⟩ := (fetchDataLoop_err_none_iff sr ir order).mp herr
      refine ⟨h1, h2, ?_⟩
      rw [← hok, fetchDataLoop_success sr ir order h1 h2]

/-! ## The advisory message of the terminal join -/

theorem joinStations_message_ne_iff
    (informationMap : List (String × gbfsStationInformationStation))
    (statusMap : List (String × gbfsStationStatusStation)) :
    (Tview.joinStations informationMap statusMap).2 ≠ "" ↔
      informationMap.any (fun e => (mapGet statusMap e.1).isNone) = true := by
  rw [joinStations_tview_snd]
  cases h : informationMap.any (fun e => (mapGet statusMap e.1).isNone) with
  | true =>
      constructor
      · intro _
        rfl
      · intro _
        show Tview.missingStatusMessage ≠ ""
        decide
  | false =>
      constructor
      · intro hne
        exact (hne rfl).elim
      · intro hfalse
        exact absurd hfalse (by decide)

theorem any_isNone_iff
    (informationMap : List (String × gbfsStationInformationStation))
    (statusMap : List (String × gbfsStationStatusStation)) :
    informationMap.any (fun e => (mapGet statusMap e.1).isNone) = true ↔
      ∃ id, (mapGet informationMap id).isSome = true ∧
        mapGet statusMap id = none := by
  rw [List.any_eq_true]
  constructor
  · rintro ⟨e, hmem, hnone⟩
    refine ⟨e.1, ?_, ?_⟩
    · exact (mapGet_isSome_iff informationMap e.1).mpr
        (List.mem_map_of_mem Prod.fst hmem)
    · exact Option.isNone_iff_eq_none.mp hnone
  · rintro ⟨id, hsome, hnone⟩
    have hmem := (mapGet_isSome_iff informationMap id).mp hsome
    obtain ⟨e, he, hid⟩ := List.mem_map.mp hmem
    refine ⟨e, he, ?_⟩
    rw [show e.1 = id from hid, hnone]
    rfl

/-! ## Concrete fixtures for the closed theorems -/

def informationStation627 : gbfsStationInformationStation :=
  { StationID := "627", Name := "Skøyen Stasjon", Address := "Skøyen Stasjon"
    Latitude := 59, Longitude := 10, Capacity := 20 }

def informationStation623 : gbfsStationInformationStation :=
  { StationID := "623", Name := "7 Juni Plassen", Address := "7 Juni Plassen"
    Latitude := 59, Longitude := 10, Capacity := 15 }

def statusStation627 : gbfsStationStatusStation :=
  { StationID := "627", NumberOfBikesAvailable := 7
    NumberOfBikesDisabled := 0, NumberOfDocksAvailable := 5
    NumberOfDocksDisabled := 0, IsInstalled := 1, IsRenting := 1
    IsReturning := 1, LastReported := 1540219230 }

def statusStation623 : gbfsStationStatusStation :=
  { StationID := "623", NumberOfBikesAvailable := 4
    NumberOfBikesDisabled := 0, NumberOfDocksAvailable := 8
    NumberOfDocksDisabled := 0, IsInstalled := 1, IsRenting := 1
    IsReturning := 1, LastReported := 1540219230 }

/-- A successful information-unit result carrying the two example
stations. -/
def informationResultTwo : stationInformationResult :=
  { Information :=
      { LastUpdated := 1553592653
        Data := { Stations := [informationStation627, informationStation623] } }
    Error := none }

/-- A successful status-unit result carrying status for station 627 only. -/
def statusResultOne : stationStatusResult :=
  { Status :=
      { LastUpdated := 1540219230
        Data := { Stations := [statusStation627] } }
    Error := none }

/-- A successful status-unit result carrying status for both example
stations. -/
def statusResultTwo : stationStatusResult :=
  { Status :=
      { LastUpdated := 1540219230
        Data := { Stations := [statusStation627, statusStation623] } }
    Error := none }

def statusBoom : goError := ⟨"status feed failed"⟩

def informationBoom : goError := ⟨"information feed failed"⟩

def failedStatusResult : stationStatusResult :=
  { Status := gbfsStationStatus.zero, Error := some statusBoom }

def failedInformationResult : stationInformationResult :=
  { Information := gbfsStationInformation.zero, Error := some informationBoom }

/-- A response body that is not valid JSON (the test suite's garbled body
`\x7b#$`). -/
def garbledBody : String := "\x7b#$"

def unmarshalError : goError :=
  ⟨"invalid character looking for beginning of object key string"⟩

/-- Behaviour of `json.Unmarshal` on a cycle whose body does not decode. -/
def informationUnmarshalFail : String → Except goError gbfsStationInformation :=
  fun _ => .error unmarshalError

/-- Behaviour of `json.Unmarshal` on a cycle whose body does not decode. -/
def statusUnmarshalFail : String → Except goError gbfsStationStatus :=
  fun _ => .error unmarshalError

/-- Fixture stations with names "A" and "B" for the ordering theorems. -/
def informationStationA : gbfsStationInformationStation :=
  { StationID := "1", Name := "A", Address := "", Latitude := 0
    Longitude := 0, Capacity := 1 }

def informationStationB : gbfsStationInformationStation :=
  { StationID := "2", Name := "B", Address := "", Latitude := 0
    Longitude := 0, Capacity := 1 }

def statusStation1 : gbfsStationStatusStation :=
  { StationID := "1", NumberOfBikesAvailable := 1, NumberOfBikesDisabled := 0
    NumberOfDocksAvailable := 1, NumberOfDocksDisabled := 0, IsInstalled := 1
    IsRenting := 1, IsReturning := 1, LastReported := 0 }

def statusStation2 : gbfsStationStatusStation :=
  { StationID := "2", NumberOfBikesAvailable := 2, NumberOfBikesDisabled := 0
    NumberOfDocksAvailable := 2, NumberOfDocksDisabled := 0, IsInstalled := 1
    IsRenting := 1, IsReturning := 1, LastReported := 0 }

/-! ## Claim theorems -/

/-- C1: the sequential variant's `fetchStationStatus` returns a `nil` error
both when the status fetch fails and when the status body does not decode,
while `fetchStationInformation` surfaces the identical decode failure as an
error, and the concurrent `fetchData` escalates the same status-side decode
error with no snapshot in both arrival orders. The status-side failures of
the sequential path are therefore swallowed instead of escalated, against
the documented contract. -/
theorem seq_status_failures_swallowed :
    (Seq.fetchStationStatus (.failure statusBoom) statusUnmarshalFail).2 = none
  ∧ (Seq.fetchStationStatus (.response ⟨200, .ok garbledBody⟩)
        statusUnmarshalFail).2 = none
  ∧ (Seq.fetchStationInformation (.response ⟨200, .ok garbledBody⟩)
        informationUnmarshalFail).2 = some unmarshalError
  ∧ Tview.fetchData
      (fetchStationStatus
        (Server.fetch stationStatusAddress (.response ⟨200, .ok garbledBody⟩))
        statusUnmarshalFail)
      informationResultTwo .statusFirst
      = ([], Tview.fetchFailedMessage, some unmarshalError)
  ∧ Tview.fetchData
      (fetchStationStatus
        (Server.fetch stationStatusAddress (.response ⟨200, .ok garbledBody⟩))
        statusUnmarshalFail)
      informationResultTwo .informationFirst
      = ([], Tview.fetchFailedMessage, some unmarshalError) :=
  ⟨rfl, rfl, rfl, rfl, rfl⟩

/-- C4 counterexample: with both units failing and the status result
received first, `fetchData` returns the information error (the second
observed), not the status error (the first observed). -/
theorem fetchData_error_not_first_observed :
    Server.fetchData failedStatusResult failedInformationResult .statusFirst
      = .error informationBoom
  ∧ informationBoom ≠ statusBoom :=
  ⟨rfl, by decide⟩

/-- C4 (amended): when both concurrent units fail, the error returned by
`fetchData` is the LAST error observed — the error of whichever unit
completed second — in the web-server variant and in the `main.go` variant
alike. -/
theorem fetchData_returns_last_observed_error
    (sr : stationStatusResult) (ir : stationInformationResult)
    (es ei : goError) (hs : sr.Error = some es) (hi : ir.Error = some ei) :
    Server.fetchData sr ir .statusFirst = .error ei
  ∧ Server.fetchData sr ir .informationFirst = .error es
  ∧ (CLI.fetchData sr ir .statusFirst).2.2 = some ei
  ∧ (CLI.fetchData sr ir .informationFirst).2.2 = some es := by
  obtain ⟨h1, h2⟩ := fetchDataLoop_both_failed sr ir es ei hs hi
  refine ⟨?_, ?_, ?_, ?_⟩
  · unfold Server.fetchData
    rw [h1]
  · unfold Server.fetchData
    rw [h2]
  · unfold CLI.fetchData
    rw [h1]
  · unfold CLI.fetchData
    rw [h2]

/-- Witness for the amended C4 at concrete failing results. -/
theorem fetchData_returns_last_observed_error_witness :
    failedStatusResult.Error = some statusBoom
  ∧ failedInformationResult.Error = some informationBoom
  ∧ (Server.fetchData failedStatusResult failedInformationResult .statusFirst
        = .error informationBoom
    ∧ Server.fetchData failedStatusResult failedInformationResult
        .informationFirst = .error statusBoom
    ∧ (CLI.fetchData failedStatusResult failedInformationResult
        .statusFirst).2.2 = some informationBoom
    ∧ (CLI.fetchData failedStatusResult failedInformationResult
        .informationFirst).2.2 = some statusBoom) :=
  ⟨rfl, rfl,
    fetchData_returns_last_observed_error failedStatusResult
      failedInformationResult statusBoom informationBoom rfl rfl⟩

/-- C5: a refresh iteration whose `fetchData` returns an error leaves the
stations cache exactly as it was, so both read handlers keep answering from
the previously published snapshot. -/
theorem failed_refresh_leaves_cache_unchanged
    (c : Server.cacheStore) (sr : stationStatusResult)
    (ir : stationInformationResult) (order : fetchOrder) (e : goError)
    (now : Nat) (stationID : String)
    (h : Server.fetchData sr ir order = .error e) :
    Server.updateStationsCacheOnce c (Server.fetchData sr ir order) = c
  ∧ Server.AllStations
      (Server.updateStationsCacheOnce c (Server.fetchData sr ir order)) now
      = Server.AllStations c now
  ∧ Server.SingleStation
      (Server.updateStationsCacheOnce c (Server.fetchData sr ir order)) now
        stationID
      = Server.SingleStation c now stationID := by
  rw [h]
  exact ⟨rfl, rfl, rfl⟩

/-- Witness for C5: a failing refresh against a populated cache. -/
theorem failed_refresh_leaves_cache_unchanged_witness :
    Server.fetchData failedStatusResult informationResultTwo .statusFirst
      = .error statusBoom
  ∧ (Server.updateStationsCacheOnce
        (Server.cacheSet Server.cacheNew
          [("627", { StationID := "627", Name := "Skøyen Stasjon"
                     NumberOfBikesAvailable := 7
                     NumberOfDocksAvailable := 5 })])
        (Server.fetchData failedStatusResult informationResultTwo .statusFirst)
        = Server.cacheSet Server.cacheNew
            [("627", { StationID := "627", Name := "Skøyen Stasjon"
                       NumberOfBikesAvailable := 7
                       NumberOfDocksAvailable := 5 })]
    ∧ Server.AllStations
        (Server.updateStationsCacheOnce
          (Server.cacheSet Server.cacheNew
            [("627", { StationID := "627", Name := "Skøyen Stasjon"
                       NumberOfBikesAvailable := 7
                       NumberOfDocksAvailable := 5 })])
          (Server.fetchData failedStatusResult informationResultTwo
            .statusFirst)) 0
        = Server.AllStations
            (Server.cacheSet Server.cacheNew
              [("627", { StationID := "627", Name := "Skøyen Stasjon"
                         NumberOfBikesAvailable := 7
                         NumberOfDocksAvailable := 5 })]) 0
    ∧ Server.SingleStation
        (Server.updateStationsCacheOnce
          (Server.cacheSet Server.cacheNew
            [("627", { StationID := "627", Name := "Skøyen Stasjon"
                       NumberOfBikesAvailable := 7
                       NumberOfDocksAvailable := 5 })])
          (Server.fetchData failedStatusResult informationResultTwo
            .statusFirst)) 0 "627"
        = Server.SingleStation
            (Server.cacheSet Server.cacheNew
              [("627", { StationID := "627", Name := "Skøyen Stasjon"
                         NumberOfBikesAvailable := 7
                         NumberOfDocksAvailable := 5 })]) 0 "627") :=
  ⟨rfl,
    failed_refresh_leaves_cache_unchanged
      (Server.cacheSet Server.cacheNew
        [("627", { StationID := "627", Name := "Skøyen Stasjon"
                   NumberOfBikesAvailable := 7
                   NumberOfDocksAvailable := 5 })])
      failedStatusResult informationResultTwo .statusFirst statusBoom 0 "627"
      rfl⟩

/-- C6: `main.go`'s `fetch` performs no status-code check — a 500 response
with a readable body comes back as a success carrying the body — while the
web-server/terminal `fetch` rejects the same exchange with the formatted
transport error, which is the behaviour the claim (and `TestFetchBase`)
describes. -/
theorem fetch_cli_returns_body_on_non_200 :
    CLI.fetch "https://hostname.com/path/to"
        (.response ⟨500, .ok "Internal Server Error"⟩)
      = .ok "Internal Server Error"
  ∧ Server.fetch "https://hostname.com/path/to"
        (.response ⟨500, .ok "Internal Server Error"⟩)
      = .error
          ⟨"Http GET to https://hostname.com/path/to failed with status code 500"⟩ :=
  ⟨rfl, rfl⟩

/-- C10: in the `main.go` variant, when exactly one of the two units fails,
`fetchData` returns the successful side's fully built lookup map alongside
the non-nil error (the failed side's map stays empty), in both arrival
orders. -/
theorem fetchData_cli_partial_data_with_error
    (sr : stationStatusResult) (ir : stationInformationResult)
    (order : fetchOrder) (e : goError) :
    (sr.Error = some e → ir.Error = none →
      CLI.fetchData sr ir order =
        (buildInformationMap ir.Information.Data.Stations, [], some e))
  ∧ (ir.Error = some e → sr.Error = none →
      CLI.fetchData sr ir order =
        ([], buildStatusMap sr.Status.Data.Stations, some e)) := by
  constructor
  · intro hs hi
    unfold CLI.fetchData
    rw [fetchDataLoop_status_failed sr ir order e hs hi]
  · intro hi hs
    unfold CLI.fetchData
    rw [fetchDataLoop_information_failed sr ir order e hs hi]

/-- Witness for C10: status fails, information succeeds, status received
first. -/
theorem fetchData_cli_partial_data_with_error_witness :
    failedStatusResult.Error = some statusBoom
  ∧ informationResultTwo.Error = none
  ∧ CLI.fetchData failedStatusResult informationResultTwo .statusFirst
      = (buildInformationMap informationResultTwo.Information.Data.Stations,
         [], some statusBoom) :=
  ⟨rfl, rfl,
    (fetchData_cli_partial_data_with_error failedStatusResult
      informationResultTwo .statusFirst statusBoom).1 rfl rfl⟩

/-- The snapshot the web-server join builds from the two example feeds. -/
def joinedStation627 : Server.stationData :=
  { StationID := "627", Name := "Skøyen Stasjon"
    NumberOfBikesAvailable := 7, NumberOfDocksAvailable := 5 }

def joinedStation623 : Server.stationData :=
  { StationID := "623", Name := "7 Juni Plassen"
    NumberOfBikesAvailable := 4, NumberOfDocksAvailable := 8 }

/-- C2: every station in a successfully built web-server snapshot carries
its map key as id, its id is present in both lookups built from the decoded
feeds, its name comes from the metadata record of that id and its
availability counts from the status record of that id. -/
theorem joined_station_fields_match_sources
    (sr : stationStatusResult) (ir : stationInformationResult)
    (order : fetchOrder) (stations : List (String × Server.stationData))
    (id : String) (s : Server.stationData)
    (hok : Server.fetchData sr ir order = .ok stations)
    (hmem : (id, s) ∈ stations) :
    s.StationID = id
  ∧ (∃ information,
      mapGet (buildInformationMap ir.Information.Data.Stations) id
        = some information
      ∧ s.Name = information.Name)
  ∧ (∃ status,
      mapGet (buildStatusMap sr.Status.Data.Stations) id = some status
      ∧ s.NumberOfBikesAvailable = status.NumberOfBikesAvailable
      ∧ s.NumberOfDocksAvailable = status.NumberOfDocksAvailable) := by
  obtain ⟨h1, h2, hstations⟩ := fetchData_server_ok_inv hok
  rw [hstations] at hmem
  obtain ⟨information, status, hmemI, hget, hs⟩ := mem_joinStations_server hmem
  subst hs
  exact ⟨rfl,
    ⟨information,
      mapGet_eq_some_of_mem (nodup_mapKeys_buildInformationMap _) hmemI, rfl⟩,
    ⟨status, hget, rfl, rfl⟩⟩

/-- Witness for C2 at the spec's example feeds and station 627. -/
theorem joined_station_fields_match_sources_witness :
    Server.fetchData statusResultTwo informationResultTwo .statusFirst
      = .ok [("627", joinedStation627), ("623", joinedStation623)]
  ∧ ("627", joinedStation627)
      ∈ [("627", joinedStation627), ("623", joinedStation623)]
  ∧ (joinedStation627.StationID = "627"
    ∧ (∃ information,
        mapGet (buildInformationMap
          informationResultTwo.Information.Data.Stations) "627"
          = some information
        ∧ joinedStation627.Name = information.Name)
    ∧ (∃ status,
        mapGet (buildStatusMap statusResultTwo.Status.Data.Stations) "627"
          = some status
        ∧ joinedStation627.NumberOfBikesAvailable
            = status.NumberOfBikesAvailable
        ∧ joinedStation627.NumberOfDocksAvailable
            = status.NumberOfDocksAvailable)) :=
  ⟨rfl, by decide,
    joined_station_fields_match_sources statusResultTwo informationResultTwo
      .statusFirst [("627", joinedStation627), ("623", joinedStation623)]
      "627" joinedStation627 rfl (by decide)⟩

/-- C3: for decoded inputs whose id-sets differ, the successful
terminal-variant snapshot contains only stations built from a metadata id
that also has a status record (ids present only in status are dropped
entirely), and the advisory message is set iff at least one metadata id has
no matching status. -/
theorem join_drops_status_only_ids_and_flags_missing
    (statusLastUpdated informationLastUpdated : Int)
    (statusStations : List gbfsStationStatusStation)
    (informationStations : List gbfsStationInformationStation)
    (order : fetchOrder)
    (hdiff : ∃ id,
      (mapGet (buildInformationMap informationStations) id).isSome ≠
        (mapGet (buildStatusMap statusStations) id).isSome) :
    (∀ s ∈ (Tview.fetchData
        ⟨⟨statusLastUpdated, ⟨statusStations⟩⟩, none⟩
        ⟨⟨informationLastUpdated, ⟨informationStations⟩⟩, none⟩ order).1,
      ∃ id information status,
        mapGet (buildInformationMap informationStations) id = some information
        ∧ mapGet (buildStatusMap statusStations) id = some status
        ∧ s = { Name := information.Name
                NumberOfBikesAvailable := status.NumberOfBikesAvailable
                NumberOfDocksAvailable := status.NumberOfDocksAvailable })
  ∧ ((Tview.fetchData
        ⟨⟨statusLastUpdated, ⟨statusStations⟩⟩, none⟩
        ⟨⟨informationLastUpdated, ⟨informationStations⟩⟩, none⟩ order).2.1 ≠ ""
      ↔ ∃ id,
          (mapGet (buildInformationMap informationStations) id).isSome = true
          ∧ mapGet (buildStatusMap statusStations) id = none) := by
  have hout := fetchData_tview_ok
    ⟨⟨statusLastUpdated, ⟨statusStations⟩⟩, none⟩
    ⟨⟨informationLastUpdated, ⟨informationStations⟩⟩, none⟩ order rfl rfl
  rw [hout]
  constructor
  · intro s hs
    have hs2 := mem_sortStations.mp hs
    rw [joinStations_tview_fst] at hs2
    obtain ⟨e, hmemE, hj⟩ := List.mem_filterMap.mp hs2
    rw [joinedOf] at hj
    cases hst : mapGet (buildStatusMap statusStations) e.1 with
    | none =>
        rw [hst] at hj
        simp at hj
    | some status =>
        rw [hst] at hj
        simp only [Option.map_some', Option.some.injEq] at hj
        have hmemE2 : (e.1, e.2) ∈ buildInformationMap informationStations := by
          rw [Prod.mk.eta]
          exact hmemE
        refine ⟨e.1, e.2, status, ?_, hst, hj.symm⟩
        exact mapGet_eq_some_of_mem (nodup_mapKeys_buildInformationMap _) hmemE2
  · exact (joinStations_message_ne_iff
        (buildInformationMap informationStations)
        (buildStatusMap statusStations)).trans (any_isNone_iff _ _)

/-- Witness for C3: metadata lists 627 and 623 but status only 627 — the
snapshot keeps only 627 and the advisory message is set. -/
theorem join_drops_status_only_ids_and_flags_missing_witness :
    (∃ id,
      (mapGet (buildInformationMap
          [informationStation627, informationStation623]) id).isSome ≠
        (mapGet (buildStatusMap [statusStation627]) id).isSome)
  ∧ ((∀ s ∈ (Tview.fetchData
        ⟨⟨1540219230, ⟨[statusStation627]⟩⟩, none⟩
        ⟨⟨1553592653, ⟨[informationStation627, informationStation623]⟩⟩, none⟩
        .statusFirst).1,
      ∃ id information status,
        mapGet (buildInformationMap
          [informationStation627, informationStation623]) id
          = some information
        ∧ mapGet (buildStatusMap [statusStation627]) id = some status
        ∧ s = { Name := information.Name
                NumberOfBikesAvailable := status.NumberOfBikesAvailable
                NumberOfDocksAvailable := status.NumberOfDocksAvailable })
    ∧ ((Tview.fetchData
        ⟨⟨1540219230, ⟨[statusStation627]⟩⟩, none⟩
        ⟨⟨1553592653, ⟨[informationStation627, informationStation623]⟩⟩, none⟩
        .statusFirst).2.1 ≠ ""
      ↔ ∃ id,
          (mapGet (buildInformationMap
            [informationStation627, informationStation623]) id).isSome = true
          ∧ mapGet (buildStatusMap [statusStation627]) id = none)) :=
  ⟨⟨"623", by decide⟩,
    join_drops_status_only_ids_and_flags_missing 1540219230 1553592653
      [statusStation627] [informationStation627, informationStation623]
      .statusFirst ⟨"623", by decide⟩⟩

/-- C7 counterexample: the terminal `fetchData` reorders its output — with
metadata listing station "B" before station "A", the returned snapshot is
sorted "A" before "B" although the join's own emission order was "B" first:
the alphabetical sorting happens inside the join function that builds the
snapshot, not in a presentation-layer consumer after retrieval. -/
theorem join_sorts_inside_counterexample :
    (Tview.fetchData ⟨⟨0, ⟨[statusStation2, statusStation1]⟩⟩, none⟩
        ⟨⟨0, ⟨[informationStationB, informationStationA]⟩⟩, none⟩
        .statusFirst).1
      = [{ Name := "A", NumberOfBikesAvailable := 1
           NumberOfDocksAvailable := 1 },
         { Name := "B", NumberOfBikesAvailable := 2
           NumberOfDocksAvailable := 2 }]
  ∧ (Tview.joinStations
        (buildInformationMap [informationStationB, informationStationA])
        (buildStatusMap [statusStation2, statusStation1])).1
      = [{ Name := "B", NumberOfBikesAvailable := 2
           NumberOfDocksAvailable := 2 },
         { Name := "A", NumberOfBikesAvailable := 1
           NumberOfDocksAvailable := 1 }]
  ∧ ([{ Name := "A", NumberOfBikesAvailable := 1
        NumberOfDocksAvailable := 1 },
      { Name := "B", NumberOfBikesAvailable := 2
        NumberOfDocksAvailable := 2 }] : List Tview.stationData)
      ≠ [{ Name := "B", NumberOfBikesAvailable := 2
           NumberOfDocksAvailable := 2 },
         { Name := "A", NumberOfBikesAvailable := 1
           NumberOfDocksAvailable := 1 }] :=
  ⟨by decide, by decide, by decide⟩

/-- C7 (amended): the ordering is established inside the terminal
`fetchData` itself: for every pair of unit results and every arrival order,
the snapshot list it returns is already sorted by station name. -/
theorem fetchData_tview_output_sorted_by_name
    (sr : stationStatusResult) (ir : stationInformationResult)
    (order : fetchOrder) :
    ((Tview.fetchData sr ir order).1).Pairwise
      (fun a b => Tview.nameLe a b = true) := by
  cases herr : (fetchDataLoop sr ir order).err with
  | some e =>
      simp only [Tview.fetchData, herr]
      exact List.Pairwise.nil
  | none =>
      simp only [Tview.fetchData, herr]
      exact sortStations_pairwise _

/-- C8: the join is iteration-order independent: over any two enumerations
(Go map iteration orders) of the same information map, the two snapshots
are permutations of each other — equal as multisets of joined-station
values — and the advisory messages are identical. -/
theorem join_rerun_same_station_set
    (enumeration1 enumeration2 : List (String × gbfsStationInformationStation))
    (statusMap : List (String × gbfsStationStatusStation))
    (hperm : enumeration1.Perm enumeration2) :
    (Tview.sortStations (Tview.joinStations enumeration1 statusMap).1).Perm
      (Tview.sortStations (Tview.joinStations enumeration2 statusMap).1)
  ∧ (Tview.joinStations enumeration1 statusMap).2
      = (Tview.joinStations enumeration2 statusMap).2 := by
  constructor
  · refine (sortStations_perm _).trans
      (List.Perm.trans ?_ (sortStations_perm _).symm)
    rw [joinStations_tview_fst, joinStations_tview_fst]
    exact hperm.filterMap _
  · rw [joinStations_tview_snd, joinStations_tview_snd,
      any_eq_of_perm hperm]

/-- Witness for C8 on two opposite enumerations of a two-station map. -/
theorem join_rerun_same_station_set_witness :
    ([("1", informationStationA), ("2", informationStationB)].Perm
      [("2", informationStationB), ("1", informationStationA)])
  ∧ ((Tview.sortStations (Tview.joinStations
        [("1", informationStationA), ("2", informationStationB)]
        (buildStatusMap [statusStation1, statusStation2])).1).Perm
      (Tview.sortStations (Tview.joinStations
        [("2", informationStationB), ("1", informationStationA)]
        (buildStatusMap [statusStation1, statusStation2])).1)
    ∧ (Tview.joinStations
        [("1", informationStationA), ("2", informationStationB)]
        (buildStatusMap [statusStation1, statusStation2])).2
      = (Tview.joinStations
          [("2", informationStationB), ("1", informationStationA)]
          (buildStatusMap [statusStation1, statusStation2])).2) :=
  ⟨List.Perm.swap _ _ _,
    join_rerun_same_station_set
      [("1", informationStationA), ("2", informationStationB)]
      [("2", informationStationB), ("1", informationStationA)]
      (buildStatusMap [statusStation1, statusStation2])
      (List.Perm.swap _ _ _)⟩

/-- C9: the stations cache is created with `NoExpiration` and written with
the default expiration, so once any refresh cycle has succeeded the cache
lookup never misses again — after that, for every later point of the
process lifetime, `AllStations` answers 200 and `SingleStation` never takes
the cache-miss 500 branch. -/
theorem cache_stays_populated_after_first_success
    (pre post : List Server.cacheEvent)
    (stations : List (String × Server.stationData)) (now : Nat)
    (stationID : String) :
    (Server.cacheGet (Server.runCache
        (pre ++ Server.cacheEvent.refresh (.ok stations) :: post)) now).isSome
  ∧ (Server.AllStations (Server.runCache
        (pre ++ Server.cacheEvent.refresh (.ok stations) :: post)) now).1 = 200
  ∧ (Server.SingleStation (Server.runCache
        (pre ++ Server.cacheEvent.refresh (.ok stations) :: post)) now
        stationID).1 ≠ 500 := by
  have hsplit : Server.runCache
      (pre ++ Server.cacheEvent.refresh (.ok stations) :: post)
      = post.foldl Server.stepCache
          (Server.stepCache (List.foldl Server.stepCache Server.cacheNew pre)
            (Server.cacheEvent.refresh (.ok stations))) := by
    rw [Server.runCache, List.foldl_append, List.foldl_cons]
  have h0 : cacheNeverExpires (List.foldl Server.stepCache Server.cacheNew pre) :=
    foldl_stepCache_never_expires pre _ cacheNeverExpires_cacheNew
  have h1 : cacheNeverExpires
      (Server.stepCache (List.foldl Server.stepCache Server.cacheNew pre)
        (Server.cacheEvent.refresh (.ok stations))) :=
    stepCache_never_expires h0 _
  have hs1 : (Server.stepCache
      (List.foldl Server.stepCache Server.cacheNew pre)
      (Server.cacheEvent.refresh (.ok stations))).item.isSome := by
    simp [Server.stepCache, Server.updateStationsCacheOnce, Server.cacheSet]
  have h2 := foldl_stepCache_never_expires post _ h1
  have hs2 := foldl_stepCache_isSome post _ h1 hs1
  rw [hsplit]
  have hget := cacheGet_isSome h2 hs2 now
  obtain ⟨v, hv⟩ := Option.isSome_iff_exists.mp hget
  refine ⟨hget, ?_, ?_⟩
  · simp [Server.AllStations, hv]
  · simp only [Server.SingleStation, hv]
    cases hmg : mapGet v stationID <;> simp
